import Mathlib

/-!
Shallow embedding of `navigation-router` (src/index.js): a client-side
router built on the browser Navigation API.  The class `NavigationRouter`
is translated into a state type `RouterState` and pure state-passing
functions; the external collaborators (the `URLPattern` facility and the
host's navigation-interception facility) appear as abstract capabilities
(`URLPattern` records with `test`/`exec` fields, a `compile` function
passed to `add`, and an explicit invocation of the deferred intercept
action).  `src/index.js` holds two copies of the class; the second copy's
`navigate` listener reads `event.downLoadRequest` instead of
`event.downloadRequest`, and both eligibility filters are embedded below.
-/

/-- Named-group capture mapping extracted by a URL pattern: a JS object
mapping group names to `string | undefined`. -/
abbrev Groups := List (String × Option String)

/-- The components of a URL the router reads: `url.pathname` for the
static lookup, `url.host` for the same-origin filter; patterns receive
the whole URL. -/
structure Url where
  host : String
  pathname : String
  search : String
  hash : String
  deriving DecidableEq, Repr

/-- One component result of `pattern.exec(url)` (e.g. `.pathname`): the
matched input and its named groups. -/
structure URLPatternComponentResult where
  input : String
  groups : Groups
  deriving DecidableEq, Repr

/-- Result of `pattern.exec(url)`; the router reads only
`.pathname.groups`. -/
structure URLPatternResult where
  pathname : URLPatternComponentResult
  deriving DecidableEq, Repr

/-- The pattern-matching capability (`URLPattern`), an external
collaborator: a compiled matcher with `test` and `exec` over a full URL. -/
structure URLPattern where
  test : Url → Bool
  exec : Url → Option URLPatternResult

/-- Entry of `#dynamicRoutes`: `{ route, pattern, handler }`. -/
structure DynamicRoute (α : Type) where
  route : String
  pattern : URLPattern
  handler : α

/-- Private state of a `NavigationRouter`: the `#staticRoutes` map (an
insertion-ordered key/value list with JS `Map` semantics), the ordered
`#dynamicRoutes` array, and the `#resolveRouteChange` slot (`null` is
`none`).  `α` is the handler type, `ρ` the resolver type. -/
structure RouterState (α ρ : Type) where
  staticRoutes : List (String × α)
  dynamicRoutes : List (DynamicRoute α)
  resolveRouteChange : Option ρ

/-- JS `Map.prototype.set`: overwrite in place when the key is present,
append otherwise. -/
def mapSet (m : List (String × α)) (k : String) (v : α) : List (String × α) :=
  match m with
  | [] => [(k, v)]
  | (k0, v0) :: rest => if k0 = k then (k, v) :: rest else (k0, v0) :: mapSet rest k v

/-- JS `Map.prototype.get`: the value stored for `k`; `undefined` is
`none`. -/
def mapGet (m : List (String × α)) (k : String) : Option α :=
  match m with
  | [] => none
  | (k0, v0) :: rest => if k0 = k then some v0 else mapGet rest k

/-- The matched-route record `{ params: match?.pathname?.groups, url }`
built by `match`; `params` is `undefined` (`none`) when the optional
chain hits a missing `match` field, which happens on static hits. -/
structure RouteRecord where
  params : Option Groups
  url : Url
  deriving DecidableEq, Repr

/-- Detail payload of a router event: the raw URL (for `404`) or the
matched-route record (for `change`). -/
inductive EventDetail where
  | url (u : Url)
  | route (r : RouteRecord)
  deriving DecidableEq, Repr

/-- `RouterEvent`: an event name plus its `detail` payload. -/
structure RouterEvent where
  name : String
  detail : EventDetail
  deriving DecidableEq, Repr

/-- `RouterEvent.make(name, data)`. -/
def RouterEvent.make (name : String) (data : EventDetail) : RouterEvent :=
  ⟨name, data⟩

/-- Return value of `#getRoute`: `{ handler }` on a static hit (no
`match` field, so `matchResult = none`) or `{ match, handler }` on a
pattern hit. -/
structure MatchedRoute (α : Type) where
  matchResult : Option URLPatternResult
  handler : α

/-- The `for … of this.#dynamicRoutes` loop of `#getRoute`: the first
entry whose `pattern.test(url)` passes wins, returning
`pattern.exec(url)` and that entry's handler; falling off the loop
returns `undefined`. -/
def scanDynamicRoutes (url : Url) : List (DynamicRoute α) → Option (MatchedRoute α)
  | [] => none
  | r :: rest =>
    if r.pattern.test url then some ⟨r.pattern.exec url, r.handler⟩
    else scanDynamicRoutes url rest

/-- `#getRoute(url)`: static lookup keyed by `url.pathname` first
(handlers are functions, hence truthy, so the JS truthiness test on
`staticRoute` coincides with presence in the map), then the ordered
dynamic scan. -/
def NavigationRouter.getRoute (s : RouterState α ρ) (url : Url) :
    Option (MatchedRoute α) :=
  match mapGet s.staticRoutes url.pathname with
  | some staticRoute => some ⟨none, staticRoute⟩
  | none => scanDynamicRoutes url s.dynamicRoutes

/-- `add(route, handler)`.  `compile` is the external
`new URLPattern({ pathname: route })` constructor; a compile failure
propagates to the caller (`Except.error`) and no state change happens. -/
def NavigationRouter.add (compile : String → Except ε URLPattern)
    (s : RouterState α ρ) (route : String) (handler : α) :
    Except ε (RouterState α ρ) :=
  if route.data.contains ':' then
    match compile route with
    | .error e => .error e
    | .ok pattern =>
      .ok { s with dynamicRoutes := s.dynamicRoutes ++ [⟨route, pattern, handler⟩] }
  else
    .ok { s with staticRoutes := mapSet s.staticRoutes route handler }

/-- The deferred action that `match` registers through
`event.intercept({ handler })`: it closes over the matched-route record
and the registered handler. -/
structure InterceptAction (α : Type) where
  route : RouteRecord
  handler : α

/-- `match(url, event)`, with the private state threaded explicitly (the
method body never writes it): returns the state, the events emitted
synchronously (`404` on no match), and the interception claim, if any.
On a match it builds `route = { params: match?.pathname?.groups, url }`
and claims the navigation with the deferred action. -/
def NavigationRouter.matchUrl (s : RouterState α ρ) (url : Url) :
    RouterState α ρ × List RouterEvent × Option (InterceptAction α) :=
  match NavigationRouter.getRoute s url with
  | none => (s, [RouterEvent.make "404" (.url url)], none)
  | some matchedRoute =>
    (s, [],
     some ⟨⟨matchedRoute.matchResult.map (fun m => m.pathname.groups), url⟩,
           matchedRoute.handler⟩)

/-- One observable step performed by the deferred intercept handler. -/
inductive Step (α ρ : Type) where
  | emit (e : RouterEvent)
  | resolve (r : ρ) (value : RouteRecord) (done : Bool)
  | invokeHandler (h : α) (arg : RouteRecord)
  deriving DecidableEq, Repr

/-- The host invoking the deferred intercept action: emit `change`; if
`#resolveRouteChange` is stored, resolve it with
`{ value: route, done: false }` and clear the slot; then return
`handler(route)`. -/
def invokeIntercept (s : RouterState α ρ) (a : InterceptAction α) :
    RouterState α ρ × List (Step α ρ) :=
  match s.resolveRouteChange with
  | some r =>
    ({ s with resolveRouteChange := none },
     [.emit (RouterEvent.make "change" (.route a.route)),
      .resolve r a.route false,
      .invokeHandler a.handler a.route])
  | none =>
    (s, [.emit (RouterEvent.make "change" (.route a.route)),
         .invokeHandler a.handler a.route])

/-- One pull of the async iterator: `yield new Promise(...)` stores the
fresh promise's resolver in `#resolveRouteChange`. -/
def asyncIteratorPull (s : RouterState α ρ) (r : ρ) : RouterState α ρ :=
  { s with resolveRouteChange := some r }

/-- The generator's `finally` block, reached however iteration is
abandoned (early `return`, thrown error, or explicit stop):
`this.#resolveRouteChange = null`. -/
def asyncIteratorCleanup (s : RouterState α ρ) : RouterState α ρ :=
  { s with resolveRouteChange := none }

/-- A navigation intent as the wire contract describes it: fields
`canIntercept`, `hashChange`, `downloadRequest`, `destination.url`. -/
structure NavigateEvent where
  canIntercept : Bool
  hashChange : Bool
  downloadRequest : Bool
  destinationUrl : Url
  deriving DecidableEq, Repr

/-- Eligibility filter of the first copy's `navigate` listener (reads
`event.downloadRequest`): `true` iff the navigation is handed to
`match`. -/
def navigateListenerProceeds (e : NavigateEvent) (locationHost : String) : Bool :=
  if !e.canIntercept || e.hashChange || e.downloadRequest then false
  else if e.destinationUrl.host != locationHost then false
  else true

/-- Eligibility filter of the second copy's `navigate` listener.  It
reads `event.downLoadRequest` (capital L), a property the navigation
intent does not carry, so the read yields `undefined`, which is falsy:
the disjunct is the constant `false`. -/
def navigateListenerProceeds2 (e : NavigateEvent) (locationHost : String) : Bool :=
  if !e.canIntercept || e.hashChange || false then false
  else if e.destinationUrl.host != locationHost then false
  else true

/-! Concrete fixtures used by counterexamples and witnesses. -/

/-- A compiled pattern that rejects every URL. -/
def rejectPattern : URLPattern := ⟨fun _ => false, fun _ => none⟩

/-- A compiled pattern that accepts every URL and captures `id = "42"`. -/
def acceptPattern : URLPattern :=
  ⟨fun _ => true, fun _ => some ⟨⟨"/posts/42", [("id", some "42")]⟩⟩⟩

/-- A same-origin URL with pathname `/about`. -/
def exUrlAbout : Url := ⟨"site.example", "/about", "", ""⟩

/-- A same-origin URL with pathname `/posts/42`. -/
def exUrlPost : Url := ⟨"site.example", "/posts/42", "", ""⟩

/-- An empty router state. -/
def exEmptyState : RouterState Nat Nat := ⟨[], [], none⟩

/-- A router with the single static route `/about` bound to handler `7`. -/
def exStaticState : RouterState Nat Nat := ⟨[("/about", 7)], [], none⟩

/-- A router with two dynamic routes: a rejecting pattern (handler `1`)
registered before an accepting one (handler `2`). -/
def exDynState : RouterState Nat Nat :=
  ⟨[], [⟨"/x/:a", rejectPattern, 1⟩, ⟨"/posts/:id", acceptPattern, 2⟩], none⟩

/-- A compiler that fails on every template. -/
def exFailCompile : String → Except Unit URLPattern := fun _ => .error ()

/-- A compiler that yields `acceptPattern` for every template. -/
def exOkCompile : String → Except Unit URLPattern := fun _ => .ok acceptPattern

/-- A download-triggering, interceptable, same-origin navigation intent. -/
def exDownloadEvent : NavigateEvent := ⟨true, false, true, exUrlAbout⟩

/-- An interceptable same-origin intent with `downloadRequest = false`. -/
def exPlainEvent : NavigateEvent := ⟨true, false, false, exUrlAbout⟩

/-! Helper lemmas shared by the claim theorems. -/

/-- `mapSet` then `mapGet` at the same key yields the new value. -/
theorem mapGet_mapSet_self (m : List (String × α)) (k : String) (v : α) :
    mapGet (mapSet m k v) k = some v := by
  induction m with
  | nil => simp [mapSet, mapGet]
  | cons p rest ih =>
    obtain ⟨k0, v0⟩ := p
    by_cases h : k0 = k
    · simp [mapSet, mapGet, h]
    · simp [mapSet, mapGet, h, ih]

/-- The dynamic scan returns the entry at the first accepting index. -/
theorem scanDynamicRoutes_first (url : Url) :
    ∀ (l : List (DynamicRoute α)) (i : Nat) (hi : i < l.length),
      (l.get ⟨i, hi⟩).pattern.test url = true →
      (∀ j (hj : j < i), (l.get ⟨j, Nat.lt_trans hj hi⟩).pattern.test url = false) →
      scanDynamicRoutes url l
        = some ⟨(l.get ⟨i, hi⟩).pattern.exec url, (l.get ⟨i, hi⟩).handler⟩ := by
  intro l
  induction l with
  | nil => intro i hi; exact absurd hi (by simp)
  | cons r rest ih =>
    intro i hi ht hbefore
    cases i with
    | zero =>
      simp only [List.get] at ht ⊢
      simp [scanDynamicRoutes, ht]
    | succ k =>
      have hr : r.pattern.test url = false := hbefore 0 (Nat.succ_pos k)
      have hk : k < rest.length := Nat.lt_of_succ_lt_succ hi
      have hrec := ih k hk ht (fun j hj => hbefore (j + 1) (Nat.succ_lt_succ hj))
      simpa [scanDynamicRoutes, hr] using hrec

/-- C1 (counterexample): with the static route `/about` registered and a
navigation to `/about`, the matched-route record carries
`params = undefined` (`none`), not the empty mapping `{}` (`some []`):
the static branch of `#getRoute` returns no `match` field, so the
optional chain `match?.pathname?.groups` yields `undefined`. -/
theorem static_params_counterexample :
    (NavigationRouter.matchUrl exStaticState exUrlAbout).2.2.map (fun a => a.route.params)
      = some none ∧
    (NavigationRouter.matchUrl exStaticState exUrlAbout).2.2.map (fun a => a.route.params)
      ≠ some (some ([] : Groups)) := by
  constructor
  · rfl
  · decide

/-- C1 (amended): a navigation whose pathname hits a static entry
resolves to the registered handler, emits no `404`, and the
matched-route record has `params = none` (`undefined`), with the
navigation's URL. -/
theorem static_match_handler_params_none (s : RouterState α ρ) (url : Url) (h : α)
    (hs : mapGet s.staticRoutes url.pathname = some h) :
    NavigationRouter.matchUrl s url = (s, [], some ⟨⟨none, url⟩, h⟩) := by
  simp [NavigationRouter.matchUrl, NavigationRouter.getRoute, hs]

/-- C1 (witness): the amended statement at the concrete `/about` router. -/
theorem static_match_handler_params_none_witness :
    NavigationRouter.matchUrl exStaticState exUrlAbout
      = (exStaticState, [], some ⟨⟨none, exUrlAbout⟩, 7⟩) :=
  static_match_handler_params_none exStaticState exUrlAbout 7 (by decide)

/-- C2: `#getRoute` consults the static mapping by `url.pathname` first;
only when no static entry exists does it scan the pattern sequence in
registration order, returning the exec result and handler of the first
entry whose matcher accepts the URL — no later entry is ever selected. -/
theorem getRoute_static_first_pattern_order (s : RouterState α ρ) (url : Url) :
    (∀ h, mapGet s.staticRoutes url.pathname = some h →
      NavigationRouter.getRoute s url = some ⟨none, h⟩) ∧
    (mapGet s.staticRoutes url.pathname = none →
      ∀ i (hi : i < s.dynamicRoutes.length),
        (s.dynamicRoutes.get ⟨i, hi⟩).pattern.test url = true →
        (∀ j (hj : j < i),
          (s.dynamicRoutes.get ⟨j, Nat.lt_trans hj hi⟩).pattern.test url = false) →
        NavigationRouter.getRoute s url
          = some ⟨(s.dynamicRoutes.get ⟨i, hi⟩).pattern.exec url,
                  (s.dynamicRoutes.get ⟨i, hi⟩).handler⟩) := by
  constructor
  · intro h hs
    simp [NavigationRouter.getRoute, hs]
  · intro hs i hi ht hbefore
    simp only [NavigationRouter.getRoute, hs]
    exact scanDynamicRoutes_first url s.dynamicRoutes i hi ht hbefore

/-- C2 (witness): with an empty static map, a rejecting pattern
registered first and an accepting one second, the second entry's exec
result and handler are returned. -/
theorem getRoute_static_first_pattern_order_witness :
    NavigationRouter.getRoute exDynState exUrlPost
      = some ⟨some ⟨⟨"/posts/42", [("id", some "42")]⟩⟩, 2⟩ := by
  have h := (getRoute_static_first_pattern_order exDynState exUrlPost).2 rfl 1
    (by decide) rfl (fun j hj => by
      have hj0 : j = 0 := by omega
      subst hj0
      rfl)
  exact h

/-- C3: `add` classifies by the parameter marker — a path containing `:`
is appended to the pattern sequence (duplicates retained), any other
path is stored in the static mapping — and registering a static path
twice leaves the latest handler as the one a navigation to that path
resolves to. -/
theorem add_classification_overwrite (compile : String → Except ε URLPattern)
    (s : RouterState α ρ) (route : String) (h : α) :
    (∀ pattern, route.data.contains ':' = true → compile route = .ok pattern →
      NavigationRouter.add compile s route h
        = .ok { s with dynamicRoutes := s.dynamicRoutes ++ [⟨route, pattern, h⟩] }) ∧
    (route.data.contains ':' = false →
      NavigationRouter.add compile s route h
        = .ok { s with staticRoutes := mapSet s.staticRoutes route h }) ∧
    (route.data.contains ':' = false →
      ∀ h0 s1 s2 url, NavigationRouter.add compile s route h0 = .ok s1 →
        NavigationRouter.add compile s1 route h = .ok s2 →
        url.pathname = route →
        (NavigationRouter.matchUrl s2 url).2.2.map (fun a => a.handler) = some h) := by
  refine ⟨?_, ?_, ?_⟩
  · intro pattern hc hok
    unfold NavigationRouter.add
    rw [hc, hok]
    simp
  · intro hc
    unfold NavigationRouter.add
    rw [hc]
    simp
  · intro hc h0 s1 s2 url hadd1 hadd2 hpath
    unfold NavigationRouter.add at hadd1 hadd2
    rw [hc] at hadd1 hadd2
    simp only [Bool.false_eq_true, if_false, Except.ok.injEq] at hadd1 hadd2
    subst hadd1
    subst hadd2
    simp [NavigationRouter.matchUrl, NavigationRouter.getRoute, hpath, mapGet_mapSet_self]

/-- C3 (witness): registering `/about` with handler `1` then handler `2`
makes a navigation to `/about` resolve to handler `2`. -/
theorem add_classification_overwrite_witness :
    (NavigationRouter.matchUrl (⟨[("/about", 2)], [], none⟩ : RouterState Nat Nat)
        exUrlAbout).2.2.map (fun a => a.handler) = some 2 :=
  (add_classification_overwrite exFailCompile exEmptyState "/about" 2).2.2 (by decide) 1
    ⟨[("/about", 1)], [], none⟩ ⟨[("/about", 2)], [], none⟩ exUrlAbout (by rfl) (by rfl)
    rfl

/-- C4: when `#getRoute` finds nothing, `match` emits exactly one `404`
event whose detail is the URL, emits no `change`, registers no intercept
action (so no handler can run and the navigation is not claimed), and
leaves the state untouched. -/
theorem match_notFound_emits_404 (s : RouterState α ρ) (url : Url)
    (h : NavigationRouter.getRoute s url = none) :
    NavigationRouter.matchUrl s url = (s, [RouterEvent.make "404" (.url url)], none) := by
  simp [NavigationRouter.matchUrl, h]

/-- C4 (witness): an empty router 404s a navigation to `/about`. -/
theorem match_notFound_emits_404_witness :
    NavigationRouter.matchUrl exEmptyState exUrlAbout
      = (exEmptyState, [RouterEvent.make "404" (.url exUrlAbout)], none) :=
  match_notFound_emits_404 exEmptyState exUrlAbout rfl

/-- C5 (code evaluated at the failing input): an interceptable,
same-origin navigation with `downloadRequest = true` and
`hashChange = false` is rejected by the first listener's filter, but the
second listener's filter — which reads the nonexistent
`event.downLoadRequest` property — accepts it and hands it to `match`. -/
theorem listener2_proceeds_on_download :
    exDownloadEvent.downloadRequest = true ∧
    navigateListenerProceeds exDownloadEvent "site.example" = false ∧
    navigateListenerProceeds2 exDownloadEvent "site.example" = true := by
  refine ⟨rfl, ?_, ?_⟩ <;> decide

/-- C6: when the host invokes the deferred intercept action, the steps
happen in the fixed order emit-`change`, resolve the stored
pending-notification resolver with `done: false` and clear the slot,
then invoke the handler with the matched-route record; with no stored
resolver, the resolve step is skipped and the slot stays empty. -/
theorem intercept_order_emit_resolve_handle (s : RouterState α ρ) (a : InterceptAction α) :
    (∀ r, s.resolveRouteChange = some r →
      invokeIntercept s a
        = ({ s with resolveRouteChange := none },
           [.emit (RouterEvent.make "change" (.route a.route)),
            .resolve r a.route false,
            .invokeHandler a.handler a.route])) ∧
    (s.resolveRouteChange = none →
      invokeIntercept s a
        = (s, [.emit (RouterEvent.make "change" (.route a.route)),
               .invokeHandler a.handler a.route])) := by
  constructor
  · intro r hr
    simp [invokeIntercept, hr]
  · intro hn
    simp [invokeIntercept, hn]

/-- C6 (witness): invoking the action with resolver `5` stored. -/
theorem intercept_order_emit_resolve_handle_witness :
    invokeIntercept (⟨[], [], some 5⟩ : RouterState Nat Nat) ⟨⟨none, exUrlAbout⟩, 3⟩
      = (⟨[], [], none⟩,
         [.emit (RouterEvent.make "change" (.route ⟨none, exUrlAbout⟩)),
          .resolve 5 ⟨none, exUrlAbout⟩ false,
          .invokeHandler 3 ⟨none, exUrlAbout⟩]) :=
  (intercept_order_emit_resolve_handle ⟨[], [], some 5⟩ ⟨⟨none, exUrlAbout⟩, 3⟩).1 5 rfl

/-- C7: when the path contains `:` and the pattern compiler fails on the
template, `add` propagates that error to its caller, so no new state is
produced — the entry reaches neither the pattern sequence nor the
static mapping. -/
theorem add_compile_error_propagates (compile : String → Except ε URLPattern)
    (s : RouterState α ρ) (route : String) (h : α) (e : ε)
    (hc : route.data.contains ':' = true) (he : compile route = .error e) :
    NavigationRouter.add compile s route h = .error e := by
  unfold NavigationRouter.add
  rw [hc, he]
  simp

/-- C7 (witness): a failing compiler on the template `/posts/:id`. -/
theorem add_compile_error_propagates_witness :
    NavigationRouter.add exFailCompile exEmptyState "/posts/:id" 0 = .error () :=
  add_compile_error_propagates exFailCompile exEmptyState "/posts/:id" 0 () (by decide) rfl

/-- C8: abandoning async-sequence iteration (the generator's `finally`)
clears the pending-notification slot even right after a pull stored a
resolver, and a subsequent successful match's intercept invocation
performs no resolve step at all — the abandoned consumer's resolver is
neither invoked nor present to throw on. -/
theorem cleanup_clears_slot_no_stale_resolve (s : RouterState α ρ) (r : ρ)
    (a : InterceptAction α) :
    (asyncIteratorCleanup (asyncIteratorPull s r)).resolveRouteChange = none ∧
    (invokeIntercept (asyncIteratorCleanup (asyncIteratorPull s r)) a).2
      = [.emit (RouterEvent.make "change" (.route a.route)),
         .invokeHandler a.handler a.route] :=
  ⟨rfl, rfl⟩

/-- C9 (counterexample): at an interceptable same-origin navigation with
`downloadRequest = true`, the two listener filters disagree — the first
copy ignores it, the second copy hands it to `match`. -/
theorem listeners_differ_counterexample :
    navigateListenerProceeds exDownloadEvent "site.example"
      ≠ navigateListenerProceeds2 exDownloadEvent "site.example" := by
  decide

/-- C9 (amended): the two copies of the navigate-listener eligibility
filter reach the same decision on every navigation intent whose
`downloadRequest` field is `false`; they differ exactly on
download-triggering navigations that pass the other checks. -/
theorem listeners_equiv_no_download (e : NavigateEvent) (locationHost : String)
    (h : e.downloadRequest = false) :
    navigateListenerProceeds e locationHost = navigateListenerProceeds2 e locationHost := by
  unfold navigateListenerProceeds navigateListenerProceeds2
  rw [h]

/-- C9 (witness): the amended equivalence at a concrete non-download
intent. -/
theorem listeners_equiv_no_download_witness :
    navigateListenerProceeds exPlainEvent "site.example"
      = navigateListenerProceeds2 exPlainEvent "site.example" :=
  listeners_equiv_no_download exPlainEvent "site.example" rfl

/-- C10: neither `match` (hence neither `#getRoute`, which it calls and
which returns no state) nor the deferred intercept action touches the
route table: the static mapping and the pattern sequence after either
operation are exactly the ones before; only `add` produces a state with
a different table. -/
theorem match_preserves_route_table (s : RouterState α ρ) (url : Url)
    (a : InterceptAction α) :
    (NavigationRouter.matchUrl s url).1.staticRoutes = s.staticRoutes ∧
    (NavigationRouter.matchUrl s url).1.dynamicRoutes = s.dynamicRoutes ∧
    (invokeIntercept s a).1.staticRoutes = s.staticRoutes ∧
    (invokeIntercept s a).1.dynamicRoutes = s.dynamicRoutes := by
  have hm : (NavigationRouter.matchUrl s url).1 = s := by
    unfold NavigationRouter.matchUrl
    cases NavigationRouter.getRoute s url <;> rfl
  have hi1 : (invokeIntercept s a).1.staticRoutes = s.staticRoutes := by
    unfold invokeIntercept
    cases s.resolveRouteChange <;> rfl
  have hi2 : (invokeIntercept s a).1.dynamicRoutes = s.dynamicRoutes := by
    unfold invokeIntercept
    cases s.resolveRouteChange <;> rfl
  exact ⟨by rw [hm], by rw [hm], hi1, hi2⟩
